import Mathlib

/-!
MathFact (Math Invaders) — verification of the game-loop and scoring logic

Shallow embedding of the core logic of src/Javascript/script.js: the
Invader entity, the Game controller's scoring state, answer checking,
spawn policy, the per-frame invader update/miss loop, settings clamping,
and end-of-game resolution.

Conventions of the embedding:
* JS numbers holding integer quantities (values, scores, multiplier,
  intervals, wall-clock milliseconds) become Int or Nat.
* JS floating-point quantities (positions, speeds, the per-frame delta in
  seconds, Math.random() draws) become rationals.
* Math.random() draws are passed in explicitly as rationals in [0, 1).
* DOM side effects (element creation, textContent updates, console logs)
  are dropped; observable outputs such as the shown alert and the
  game-over report are returned as data.
* The player's composed answer string is a list of decimal digits: the
  keypad/keyboard handler (script.js lines 300-306 and 118-125) only ever
  appends characters between 0 and 9, so the composed string is always a
  digit string of length at most 5.
-/

namespace MathInvaders

/-- Difficulty radio setting: single-digit (1-9) or double-digit (10-99) operands. -/
inductive Difficulty
  | single
  | double
deriving DecidableEq, Repr

/-- Game-length mode radio setting: fixed duration or fixed target score. -/
inductive Mode
  | time
  | score
deriving DecidableEq, Repr

/-- Speed tier radio setting (script.js lines 15-25). -/
inductive SpeedSetting
  | easy
  | intermediate
  | fast
deriving DecidableEq, Repr

/-- Multiplier mode radio setting: random or fixed (script.js line 246-247). -/
inductive MultiplierMode
  | random
  | fixed
deriving DecidableEq, Repr

/-- Session settings assembled by Game.getSettings (script.js line 186). -/
structure Settings where
  difficulty : Difficulty
  mode : Mode
  speed : SpeedSetting
  multiplierMode : MultiplierMode
  fixedMultiplier : Int
  limit : Int
deriving DecidableEq, Repr

/-- Clamp of the time-limit field (script.js lines 177, 181): a missing or
unparseable value (parseInt yielding NaN, modelled as none) or a value at
most 0 becomes 60. -/
def clampTimeLimit (raw : Option Int) : Int :=
  match raw with
  | none => 60
  | some t => if t ≤ 0 then 60 else t

/-- Clamp of the score-limit field (script.js lines 178, 182): missing,
unparseable or nonpositive becomes 20. -/
def clampScoreLimit (raw : Option Int) : Int :=
  match raw with
  | none => 20
  | some t => if t ≤ 0 then 20 else t

/-- Clamp of the fixed-multiplier field (script.js lines 179, 183-184):
missing, unparseable or below 1 becomes 1; then anything above 12 becomes 12. -/
def clampFixedMultiplier (raw : Option Int) : Int :=
  let f := match raw with
    | none => 1
    | some f => if f < 1 then 1 else f
  if f > 12 then 12 else f

/-- Game.getSettings (script.js lines 166-192): radio selections pass
through, numeric fields are clamped, and the session limit is the time
limit in timed mode and the score limit in score mode. -/
def getSettings (difficulty : Difficulty) (mode : Mode) (speed : SpeedSetting)
    (multiplierMode : MultiplierMode)
    (timeRaw scoreRaw fixedRaw : Option Int) : Settings :=
  { difficulty := difficulty
    mode := mode
    speed := speed
    multiplierMode := multiplierMode
    fixedMultiplier := clampFixedMultiplier fixedRaw
    limit := if mode = Mode.time then clampTimeLimit timeRaw else clampScoreLimit scoreRaw }

/-- A falling number (class Invader, script.js lines 4-50). The DOM element
handle is dropped; value, positions and speed are kept. -/
structure Invader where
  value : Int
  y : ℚ
  x : ℚ
  speed : ℚ
deriving DecidableEq, Repr

/-- Speed drawn in the Invader constructor (script.js lines 15-25) from the
speed setting and a random draw r in [0, 1). -/
def invaderSpeed (s : SpeedSetting) (r : ℚ) : ℚ :=
  match s with
  | SpeedSetting.easy => 30 + r * 30
  | SpeedSetting.fast => 110 + r * 70
  | SpeedSetting.intermediate => 60 + r * 60

/-- The Invader constructor (script.js lines 5-35): y starts at -50, x is
10 + rx * max 0 (clientWidth - 80), speed comes from the speed setting. -/
def mkInvader (value : Int) (areaWidth : ℚ) (speedSetting : SpeedSetting)
    (rx rs : ℚ) : Invader :=
  { value := value
    y := -50
    x := 10 + rx * (max 0 (areaWidth - 80))
    speed := invaderSpeed speedSetting rs }

/-- Invader.update (script.js lines 38-41): y advances by speed times the
frame delta in seconds; nothing else changes. -/
def Invader.update (delta : ℚ) (inv : Invader) : Invader :=
  { inv with y := inv.y + inv.speed * delta }

/-- Invader.isOffScreen (script.js lines 43-45): y strictly exceeds the
play area's clientHeight. -/
def Invader.isOffScreen (height : ℚ) (inv : Invader) : Bool :=
  decide (inv.y > height)

/-- The transient alert shown after a submission (Game.showAlert call sites,
script.js lines 326 and 331). -/
inductive Alert
  | correct
  | wrong
deriving DecidableEq, Repr

/-- What Game.endGame / Game.finalizeEndGame record and display
(script.js lines 368-399): whether the run is recorded as won, whether the
win celebration is started, and the game-over title. -/
structure EndReport where
  recordedWin : Bool
  celebration : Bool
  title : String
deriving DecidableEq, Repr

/-- The game controller's mutable per-session state (script.js lines 79-98),
restricted to the fields the game logic reads. -/
structure GameState where
  settings : Settings
  scoreRight : Nat
  scoreWrong : Nat
  multiplier : Int
  invaders : List Invader
  currentAnswer : List (Fin 10)
  timeLeft : Int
  spawnInterval : Int
  lastSpawnTime : Int
deriving DecidableEq, Repr

/-- The random multiplier draw (script.js line 247):
floor(random * 9) + 1 for single digits, floor(random * 12) + 1 otherwise. -/
def randomMultiplier (d : Difficulty) (r : ℚ) : Int :=
  match d with
  | Difficulty.single => ⌊r * 9⌋ + 1
  | Difficulty.double => ⌊r * 12⌋ + 1

/-- Game.setMultiplier (script.js lines 245-249): the fixed value in fixed
mode, otherwise a random draw depending on difficulty. -/
def setMultiplier (s : Settings) (r : ℚ) : Int :=
  match s.multiplierMode with
  | MultiplierMode.fixed => s.fixedMultiplier
  | MultiplierMode.random => randomMultiplier s.difficulty r

/-- The initial spawn interval (script.js lines 88 and 204). -/
def initialSpawnInterval : Int := 2500

/-- Game.start (script.js lines 194-229): scores reset, invader list
cleared, spawn interval reset to 2500, answer cleared, multiplier set, and
the last spawn time backdated so the first spawn is immediate (line 225). -/
def start (s : Settings) (rMult : ℚ) (wallNow : Int) : GameState :=
  { settings := s
    scoreRight := 0
    scoreWrong := 0
    multiplier := setMultiplier s rMult
    invaders := []
    currentAnswer := []
    timeLeft := if s.mode = Mode.time then s.limit else 0
    spawnInterval := initialSpawnInterval
    lastSpawnTime := wallNow - initialSpawnInterval - 1 }

/-- The random invader value draw (script.js lines 252-254):
floor(random * 9) + 1 for single digits, floor(random * 90) + 10 for double. -/
def spawnValue (d : Difficulty) (r : ℚ) : Int :=
  match d with
  | Difficulty.single => ⌊r * 9⌋ + 1
  | Difficulty.double => ⌊r * 90⌋ + 10

/-- Game.spawnInvader (script.js lines 251-258): draw a value from the
difficulty setting and push a new invader onto the end of the active list.
The current list contents play no role in the drawn value. -/
def spawnInvader (g : GameState) (rv rx rs : ℚ) (areaWidth : ℚ) : GameState :=
  { g with invaders :=
      g.invaders ++ [mkInvader (spawnValue g.settings.difficulty rv) areaWidth g.settings.speed rx rs] }

/-- The spawn condition of Game.gameLoop (script.js line 279): wall-clock
time since the last spawn meets or exceeds the current interval. -/
def spawnDue (wallNow : Int) (g : GameState) : Bool :=
  decide (wallNow - g.lastSpawnTime ≥ g.spawnInterval)

/-- The spawn-interval decay of Game.gameLoop (script.js line 282): on each
spawn, intervals above 600 shrink by 50, others stay. -/
def nextSpawnInterval (i : Int) : Int :=
  if i > 600 then i - 50 else i

/-- The miss-detection loop of Game.gameLoop (script.js lines 285-294): each
invader is updated once; updated invaders past the bottom are removed and
counted. The JS loop walks indices downward, so the recursion settles the
tail before prepending the head's survivor, matching the splice behaviour. -/
def processInvaders (height delta : ℚ) : List Invader → List Invader × Nat
  | [] => ([], 0)
  | inv :: rest =>
      let r := processInvaders height delta rest
      let moved := inv.update delta
      if moved.isOffScreen height then (r.1, r.2 + 1) else (moved :: r.1, r.2)

/-- One body of Game.gameLoop (script.js lines 260-298) minus the RAF
re-arm: possibly spawn (updating the interval and last-spawn time), then run
the update/miss loop, adding each miss to the wrong counter. -/
def frameStep (g : GameState) (wallNow : Int) (rv rx rs : ℚ)
    (areaWidth height delta : ℚ) : GameState :=
  let g1 := if spawnDue wallNow g then
      { spawnInvader g rv rx rs areaWidth with
          lastSpawnTime := wallNow
          spawnInterval := nextSpawnInterval g.spawnInterval }
    else g
  let r := processInvaders height delta g1.invaders
  { g1 with invaders := r.1, scoreWrong := g1.scoreWrong + r.2 }

/-- Base-10 value of the composed digit string, as parseInt computes it on
a nonempty digit string (script.js line 314). -/
def parseAnswer (ds : List (Fin 10)) : Int :=
  ds.foldl (fun a d => a * 10 + (d.val : Int)) 0

/-- parseInt on the composed string (script.js line 314): NaN (none) on the
empty string, the base-10 value otherwise. Composed strings contain only
digits, so no other NaN case can arise. -/
def parseIntOpt (ds : List (Fin 10)) : Option Int :=
  if ds = [] then none else some (parseAnswer ds)

/-- The answer-matching scan of Game.checkAnswer (script.js lines 315-319):
index of the first invader, in list order, whose value times the multiplier
equals the submitted answer. -/
def findCorrectIndex (m answer : Int) : List Invader → Option Nat
  | [] => none
  | inv :: rest =>
      if inv.value * m = answer then some 0
      else (findCorrectIndex m answer rest).map (· + 1)

/-- Game.endGame (script.js lines 368-376) together with the title logic of
Game.finalizeEndGame (lines 385-395): more wrong than right answers turn any
nominal win into a loss, and the win celebration starts only on a real win. -/
def endGame (didWin : Bool) (g : GameState) : EndReport :=
  let lostByWrong : Bool := decide (g.scoreWrong > g.scoreRight)
  let actuallyWon : Bool := didWin && !lostByWrong
  { recordedWin := actuallyWon
    celebration := actuallyWon
    title :=
      if lostByWrong then "You Lost!"
      else if g.settings.mode = Mode.score ∧ actuallyWon = true then "You Win!"
      else if actuallyWon = true then "You Win!" else "Game Over!" }

/-- Result of one Game.checkAnswer call: the updated state, the alert shown,
and the end-of-game report when the score-mode target was reached. -/
structure CheckResult where
  st : GameState
  alert : Option Alert
  ended : Option EndReport
deriving DecidableEq, Repr

/-- Game.checkAnswer (script.js lines 312-336): empty composed string is a
no-op; otherwise parse and scan for the first invader whose value times the
multiplier equals the answer. On a match that invader is removed, the right
counter bumps, and in score mode reaching the limit ends the game with the
win flag; on no match the wrong counter bumps. The composed string is
cleared after every nonempty submission. -/
def checkAnswer (g : GameState) : CheckResult :=
  if g.currentAnswer = [] then { st := g, alert := none, ended := none }
  else
    let answer := parseAnswer g.currentAnswer
    match findCorrectIndex g.multiplier answer g.invaders with
    | some i =>
        let g1 := { g with invaders := g.invaders.eraseIdx i, scoreRight := g.scoreRight + 1 }
        let ended := if g.settings.mode = Mode.score ∧ (g1.scoreRight : Int) ≥ g.settings.limit
          then some (endGame true g1) else none
        { st := { g1 with currentAnswer := [] }, alert := some Alert.correct, ended := ended }
    | none =>
        { st := { g with scoreWrong := g.scoreWrong + 1, currentAnswer := [] },
          alert := some Alert.wrong, ended := none }

/-- A keypad or keyboard key reaching Game.handleKeypadInput: the guards at
script.js lines 112-113 and 121-123 admit only single digits, del and submit. -/
inductive Key
  | digit (d : Fin 10)
  | del
  | submit
deriving DecidableEq, Repr

/-- Game.handleKeypadInput (script.js lines 300-306): digits append while
the composed string is shorter than 5, del drops the last digit, submit
runs checkAnswer. -/
def handleKeypadInput (k : Key) (g : GameState) : GameState :=
  match k with
  | Key.digit d =>
      if g.currentAnswer.length < 5 then { g with currentAnswer := g.currentAnswer ++ [d] }
      else g
  | Key.del => { g with currentAnswer := g.currentAnswer.dropLast }
  | Key.submit => (checkAnswer g).st

/-- One tick of the timed-mode countdown (script.js lines 215-219): decrement
the remaining time; at zero or below, end the game with the win flag. -/
def timerTick (g : GameState) : GameState × Option EndReport :=
  let g1 := { g with timeLeft := g.timeLeft - 1 }
  if g1.timeLeft ≤ 0 then (g1, some (endGame true g1)) else (g1, none)

/-! ## Concrete sample states used by witnesses and counterexamples -/

/-- Sample fixed-multiplier settings: score mode, target 5, multiplier 4. -/
def demoSettingsFixed : Settings :=
  { difficulty := Difficulty.single
    mode := Mode.score
    speed := SpeedSetting.intermediate
    multiplierMode := MultiplierMode.fixed
    fixedMultiplier := 4
    limit := 5 }

/-- Sample invader of value 3 sitting inside the play area. -/
def demoInvader : Invader := { value := 3, y := 0, x := 10, speed := 60 }

/-- Sample mid-session state: one invader of value 3, multiplier 4, and the
digits 1, 2 composed (so the submission parses to 12 = 3 times 4). -/
def demoG1 : GameState :=
  { settings := demoSettingsFixed
    scoreRight := 0
    scoreWrong := 0
    multiplier := 4
    invaders := [demoInvader]
    currentAnswer := [1, 2]
    timeLeft := 0
    spawnInterval := 2500
    lastSpawnTime := 0 }

/-! ## Helper lemmas -/

theorem findCorrectIndex_eq_none {m a : Int} {l : List Invader} :
    findCorrectIndex m a l = none ↔ ∀ inv ∈ l, inv.value * m ≠ a := by
  induction l with
  | nil => simp [findCorrectIndex]
  | cons inv rest ih =>
    by_cases h : inv.value * m = a
    · simp [findCorrectIndex, h]
    · simp [findCorrectIndex, h, ih]

theorem findCorrectIndex_some {m a : Int} {l : List Invader} {i : Nat}
    (h : findCorrectIndex m a l = some i) :
    ∃ inv, l[i]? = some inv ∧ inv.value * m = a ∧
      ∀ inv2 ∈ l.take i, inv2.value * m ≠ a := by
  induction l generalizing i with
  | nil => simp [findCorrectIndex] at h
  | cons inv rest ih =>
    by_cases hm : inv.value * m = a
    · simp only [findCorrectIndex, if_pos hm, Option.some.injEq] at h
      subst h
      exact ⟨inv, by simp, hm, by simp⟩
    · simp only [findCorrectIndex, if_neg hm, Option.map_eq_some'] at h
      obtain ⟨j, hj, rfl⟩ := h
      obtain ⟨inv2, h1, h2, h3⟩ := ih hj
      refine ⟨inv2, by simpa using h1, h2, ?_⟩
      intro inv3 hmem
      rw [List.take_succ_cons] at hmem
      rcases List.mem_cons.mp hmem with rfl | hmem2
      · exact hm
      · exact h3 inv3 hmem2

theorem processInvaders_fst (height delta : ℚ) (l : List Invader) :
    (processInvaders height delta l).1
      = (l.map (Invader.update delta)).filter (fun inv => ! inv.isOffScreen height) := by
  induction l with
  | nil => simp [processInvaders]
  | cons inv rest ih =>
    simp only [processInvaders, List.map_cons, List.filter_cons]
    cases h : (inv.update delta).isOffScreen height <;> simp [h, ih]

theorem processInvaders_snd (height delta : ℚ) (l : List Invader) :
    (processInvaders height delta l).2
      = (l.map (Invader.update delta)).countP (fun inv => inv.isOffScreen height) := by
  induction l with
  | nil => simp [processInvaders]
  | cons inv rest ih =>
    simp only [processInvaders, List.map_cons, List.countP_cons]
    cases h : (inv.update delta).isOffScreen height <;> simp [h, ih]

theorem checkAnswer_multiplier (g : GameState) :
    (checkAnswer g).st.multiplier = g.multiplier := by
  by_cases h : g.currentAnswer = []
  · simp [checkAnswer, h]
  · cases hfc : findCorrectIndex g.multiplier (parseAnswer g.currentAnswer) g.invaders <;>
      simp [checkAnswer, h, hfc]

/-! ## Claim theorems -/

/-- C1: for a nonempty composed digit string parsed as the integer a, if some
active invader has value v with v times the multiplier equal to a, checkAnswer
removes exactly the first such invader in list order, increments the correct
counter by one, and leaves the other invaders and the wrong counter unchanged;
if no active invader matches, it increments the wrong counter and removes no
invader. -/
theorem checkAnswer_resolution (g : GameState) (hne : g.currentAnswer ≠ []) :
    ((∃ inv ∈ g.invaders, inv.value * g.multiplier = parseAnswer g.currentAnswer) →
      ∃ i inv, g.invaders[i]? = some inv ∧
        inv.value * g.multiplier = parseAnswer g.currentAnswer ∧
        (∀ inv2 ∈ g.invaders.take i, inv2.value * g.multiplier ≠ parseAnswer g.currentAnswer) ∧
        (checkAnswer g).st.invaders = g.invaders.take i ++ g.invaders.drop (i + 1) ∧
        (checkAnswer g).st.scoreRight = g.scoreRight + 1 ∧
        (checkAnswer g).st.scoreWrong = g.scoreWrong) ∧
    ((∀ inv ∈ g.invaders, inv.value * g.multiplier ≠ parseAnswer g.currentAnswer) →
      (checkAnswer g).st.invaders = g.invaders ∧
      (checkAnswer g).st.scoreWrong = g.scoreWrong + 1 ∧
      (checkAnswer g).st.scoreRight = g.scoreRight) := by
  constructor
  · intro hex
    cases hfc : findCorrectIndex g.multiplier (parseAnswer g.currentAnswer) g.invaders with
    | none =>
      exfalso
      obtain ⟨inv, hmem, heq⟩ := hex
      exact findCorrectIndex_eq_none.mp hfc inv hmem heq
    | some i =>
      obtain ⟨inv, h1, h2, h3⟩ := findCorrectIndex_some hfc
      refine ⟨i, inv, h1, h2, h3, ?_, ?_, ?_⟩ <;>
        simp [checkAnswer, hne, hfc, List.eraseIdx_eq_take_drop_succ]
  · intro hall
    have hfc : findCorrectIndex g.multiplier (parseAnswer g.currentAnswer) g.invaders = none :=
      findCorrectIndex_eq_none.mpr hall
    refine ⟨?_, ?_, ?_⟩ <;> simp [checkAnswer, hne, hfc]

/-- Witness for C1: on the sample state with one invader of value 3 and
multiplier 4, submitting the digits 1, 2 bumps the correct counter and leaves
the wrong counter alone. -/
theorem checkAnswer_resolution_witness :
    (checkAnswer demoG1).st.scoreRight = demoG1.scoreRight + 1 ∧
    (checkAnswer demoG1).st.scoreWrong = demoG1.scoreWrong := by
  have hne : demoG1.currentAnswer ≠ [] := by decide
  have hex : ∃ inv ∈ demoG1.invaders,
      inv.value * demoG1.multiplier = parseAnswer demoG1.currentAnswer :=
    ⟨demoInvader, by simp [demoG1], by decide⟩
  obtain ⟨i, inv, -, -, -, -, h5, h6⟩ := (checkAnswer_resolution demoG1 hne).1 hex
  exact ⟨h5, h6⟩

/-- C2: when an end-of-game trigger fires with the nominal win flag set, the
session is recorded as a loss exactly when the wrong count strictly exceeds
the correct count; otherwise it is a win; and the win celebration starts
exactly on a recorded win, so it is suppressed on loss-by-accuracy. -/
theorem endGame_accuracy_override (g : GameState) :
    ((endGame true g).recordedWin = false ↔ g.scoreRight < g.scoreWrong) ∧
    ((endGame true g).recordedWin = true ↔ g.scoreWrong ≤ g.scoreRight) ∧
    (endGame true g).celebration = (endGame true g).recordedWin ∧
    ((endGame true g).title = "You Lost!" ↔ g.scoreRight < g.scoreWrong) := by
  by_cases h : g.scoreRight < g.scoreWrong
  · simp [endGame, h, Nat.le_of_lt]
  · simp [endGame, h]
    omega

/-- C3: in each frame, every invader is advanced once; the updated invaders
whose vertical position strictly exceeds the play-area height are removed and
each adds exactly one to the wrong counter, while the others stay in order and
change no counter; the correct counter is untouched by the frame. -/
theorem gameLoop_miss_detection (height delta : ℚ) (l : List Invader)
    (g : GameState) (wallNow : Int) (rv rx rs areaWidth : ℚ) :
    (processInvaders height delta l).1
      = (l.map (Invader.update delta)).filter (fun inv => ! inv.isOffScreen height) ∧
    (processInvaders height delta l).2
      = (l.map (Invader.update delta)).countP (fun inv => inv.isOffScreen height) ∧
    (frameStep g wallNow rv rx rs areaWidth height delta).scoreRight = g.scoreRight ∧
    (frameStep g wallNow rv rx rs areaWidth height delta).scoreWrong
      = g.scoreWrong + (processInvaders height delta
          (if spawnDue wallNow g then (spawnInvader g rv rx rs areaWidth).invaders
           else g.invaders)).2 ∧
    (frameStep g wallNow rv rx rs areaWidth height delta).invaders
      = (processInvaders height delta
          (if spawnDue wallNow g then (spawnInvader g rv rx rs areaWidth).invaders
           else g.invaders)).1 := by
  refine ⟨processInvaders_fst height delta l, processInvaders_snd height delta l, ?_, ?_, ?_⟩ <;>
    · unfold frameStep
      cases h : spawnDue wallNow g <;> simp [h, spawnInvader]

/-- C4: settings are clamped, not rejected: missing, unparseable or
nonpositive duration becomes 60, target score likewise becomes 20, and the
fixed multiplier is clamped into 1 to 12; in particular duration 0 gives 60,
fixed multiplier 15 gives 12, and fixed multiplier 0 gives 1. -/
theorem getSettings_clamping (v : Int) (d : Difficulty) (m : Mode) (sp : SpeedSetting)
    (mm : MultiplierMode) (tr sr fr : Option Int) :
    clampTimeLimit none = 60 ∧
    (v ≤ 0 → clampTimeLimit (some v) = 60) ∧
    (0 < v → clampTimeLimit (some v) = v) ∧
    clampScoreLimit none = 20 ∧
    (v ≤ 0 → clampScoreLimit (some v) = 20) ∧
    (0 < v → clampScoreLimit (some v) = v) ∧
    clampFixedMultiplier none = 1 ∧
    (v < 1 → clampFixedMultiplier (some v) = 1) ∧
    (12 < v → clampFixedMultiplier (some v) = 12) ∧
    (1 ≤ clampFixedMultiplier fr ∧ clampFixedMultiplier fr ≤ 12) ∧
    clampTimeLimit (some 0) = 60 ∧
    clampFixedMultiplier (some 15) = 12 ∧
    clampFixedMultiplier (some 0) = 1 ∧
    (getSettings d m sp mm tr sr fr).fixedMultiplier = clampFixedMultiplier fr ∧
    (m = Mode.time → (getSettings d m sp mm tr sr fr).limit = clampTimeLimit tr) ∧
    (m = Mode.score → (getSettings d m sp mm tr sr fr).limit = clampScoreLimit sr) := by
  refine ⟨rfl, ?_, ?_, rfl, ?_, ?_, rfl, ?_, ?_, ?_, by decide, by decide, by decide,
      rfl, ?_, ?_⟩
  · intro h; simp [clampTimeLimit, h]
  · intro h; simp [clampTimeLimit]; omega
  · intro h; simp [clampScoreLimit, h]
  · intro h; simp [clampScoreLimit]; omega
  · intro h; simp only [clampFixedMultiplier, if_pos h]; norm_num
  · intro h
    have h1 : ¬ v < 1 := by omega
    simp only [clampFixedMultiplier, if_neg h1]
    simp; omega
  · cases fr with
    | none => simp [clampFixedMultiplier]
    | some f => simp only [clampFixedMultiplier]; split_ifs <;> omega
  · intro h; simp [getSettings, h]
  · intro h; simp [getSettings, h]

/-- Witness for C4: the clamping theorem applied at the concrete inputs
-3 (nonpositive), 5 (in range), 15 (above the cap) and both modes. -/
theorem getSettings_clamping_witness :
    clampTimeLimit (some (-3)) = 60 ∧
    clampScoreLimit (some (-3)) = 20 ∧
    clampFixedMultiplier (some (-3)) = 1 ∧
    clampTimeLimit (some 5) = 5 ∧
    clampScoreLimit (some 5) = 5 ∧
    clampFixedMultiplier (some 15) = 12 ∧
    (getSettings Difficulty.single Mode.time SpeedSetting.easy MultiplierMode.random
      (some 0) (some 0) (some 0)).limit = 60 ∧
    (getSettings Difficulty.single Mode.score SpeedSetting.easy MultiplierMode.random
      (some 0) (some 0) (some 0)).limit = 20 := by
  have hneg := getSettings_clamping (-3) Difficulty.single Mode.time SpeedSetting.easy
    MultiplierMode.random (some 0) (some 0) (some 0)
  have hpos := getSettings_clamping 5 Difficulty.single Mode.score SpeedSetting.easy
    MultiplierMode.random (some 0) (some 0) (some 0)
  have hbig := getSettings_clamping 15 Difficulty.single Mode.score SpeedSetting.easy
    MultiplierMode.random (some 0) (some 0) (some 0)
  have h0 := getSettings_clamping 0 Difficulty.single Mode.score SpeedSetting.easy
    MultiplierMode.random (some 0) (some 0) (some 0)
  refine ⟨hneg.2.1 (by norm_num), hneg.2.2.2.2.1 (by norm_num),
    hneg.2.2.2.2.2.2.2.1 (by norm_num), hpos.2.2.1 (by norm_num),
    hpos.2.2.2.2.2.1 (by norm_num), hbig.2.2.2.2.2.2.2.2.1 (by norm_num),
    (hneg.2.2.2.2.2.2.2.2.2.2.2.2.2.2.1 rfl).trans hneg.2.2.2.2.2.2.2.2.2.2.1,
    (hpos.2.2.2.2.2.2.2.2.2.2.2.2.2.2.2 rfl).trans (h0.2.2.2.2.1 (by norm_num))⟩

/-- C5: the spawn interval starts at 2500 ms, a spawn occurs in a frame
exactly when the wall-clock time since the last spawn meets or exceeds the
current interval, and each spawn shrinks intervals above the 600 ms floor by
50 ms while preserving the invariant that keeps the interval at or above the
floor (the interval stays a multiple of 50 at least 600, as it is initially). -/
theorem spawn_policy (s : Settings) (rMult : ℚ) (w i wallNow : Int) (g : GameState)
    (rv rx rs areaWidth height delta : ℚ) :
    initialSpawnInterval = 2500 ∧
    (start s rMult w).spawnInterval = initialSpawnInterval ∧
    (600 ≤ initialSpawnInterval ∧ (50 : Int) ∣ initialSpawnInterval) ∧
    (spawnDue wallNow g = true ↔ wallNow - g.lastSpawnTime ≥ g.spawnInterval) ∧
    (600 ≤ i → (50 : Int) ∣ i →
      600 ≤ nextSpawnInterval i ∧ (50 : Int) ∣ nextSpawnInterval i) ∧
    (600 < i → nextSpawnInterval i = i - 50) ∧
    (i ≤ 600 → nextSpawnInterval i = i) ∧
    (spawnDue wallNow g = true →
      (frameStep g wallNow rv rx rs areaWidth height delta).spawnInterval
          = nextSpawnInterval g.spawnInterval ∧
      (frameStep g wallNow rv rx rs areaWidth height delta).lastSpawnTime = wallNow) ∧
    (spawnDue wallNow g = false →
      (frameStep g wallNow rv rx rs areaWidth height delta).spawnInterval = g.spawnInterval ∧
      (frameStep g wallNow rv rx rs areaWidth height delta).lastSpawnTime
          = g.lastSpawnTime) := by
  refine ⟨rfl, rfl, by decide, ?_, ?_, ?_, ?_, ?_, ?_⟩
  · simp [spawnDue]
  · intro h1 h2
    obtain ⟨k, rfl⟩ := h2
    unfold nextSpawnInterval
    split_ifs with h
    · exact ⟨by omega, ⟨k - 1, by ring⟩⟩
    · exact ⟨h1, ⟨k, rfl⟩⟩
  · intro h; simp [nextSpawnInterval, h]
  · intro h
    have h1 : ¬ (600 : Int) < i := by omega
    simp [nextSpawnInterval, h1]
  · intro h; unfold frameStep; rw [h]; simp
  · intro h; unfold frameStep; rw [h]; simp

/-- Witness for C5: the policy theorem applied at the interval 2500 (above
the floor), the interval 600 (at the floor), a frame whose wall clock is past
due, and one that is not. -/
theorem spawn_policy_witness :
    (600 ≤ nextSpawnInterval 2500 ∧ (50 : Int) ∣ nextSpawnInterval 2500) ∧
    nextSpawnInterval 2500 = 2500 - 50 ∧
    nextSpawnInterval 600 = 600 ∧
    (frameStep demoG1 3000 0 0 0 300 400 (1/100)).spawnInterval
        = nextSpawnInterval demoG1.spawnInterval ∧
    (frameStep demoG1 100 0 0 0 300 400 (1/100)).spawnInterval
        = demoG1.spawnInterval := by
  have h25 := spawn_policy demoSettingsFixed 0 0 2500 3000 demoG1 0 0 0 300 400 (1/100)
  have h6 := spawn_policy demoSettingsFixed 0 0 600 100 demoG1 0 0 0 300 400 (1/100)
  refine ⟨h25.2.2.2.2.1 (by norm_num) (by norm_num), h25.2.2.2.2.2.1 (by norm_num),
    h6.2.2.2.2.2.2.1 (by norm_num), (h25.2.2.2.2.2.2.2.1 (by decide)).1,
    (h6.2.2.2.2.2.2.2.2 (by decide)).1⟩

/-- C8: a per-frame update changes no invader field except the vertical
position, which advances by speed times the elapsed seconds and so never
decreases when the speed is positive and the elapsed time nonnegative; the
constructor's speed draw is positive for any draw in the unit interval. -/
theorem invader_update_effect (inv : Invader) (delta : ℚ) (s : SpeedSetting) (r : ℚ) :
    (inv.update delta).x = inv.x ∧
    (inv.update delta).value = inv.value ∧
    (inv.update delta).speed = inv.speed ∧
    (inv.update delta).y = inv.y + inv.speed * delta ∧
    (0 < inv.speed → 0 ≤ delta → inv.y ≤ (inv.update delta).y) ∧
    (0 ≤ r → 0 < invaderSpeed s r) := by
  refine ⟨rfl, rfl, rfl, rfl, ?_, ?_⟩
  · intro hs hd
    simp only [Invader.update]
    nlinarith [mul_nonneg hs.le hd]
  · intro hr
    cases s <;> simp only [invaderSpeed] <;> nlinarith

/-- Witness for C8: the sample invader with speed 60 moved for half a second
does not go up, and the easy-tier speed draw at 0 is positive. -/
theorem invader_update_effect_witness :
    demoInvader.y ≤ (demoInvader.update (1/2)).y ∧
    0 < invaderSpeed SpeedSetting.easy 0 := by
  have h := invader_update_effect demoInvader (1/2) SpeedSetting.easy 0
  exact ⟨h.2.2.2.2.1 (by norm_num [demoInvader]) (by norm_num), h.2.2.2.2.2 le_rfl⟩

/-- Sample state with an empty composed answer. -/
def demoGEmpty : GameState :=
  { settings := demoSettingsFixed
    scoreRight := 2
    scoreWrong := 1
    multiplier := 4
    invaders := [demoInvader]
    currentAnswer := []
    timeLeft := 0
    spawnInterval := 2500
    lastSpawnTime := 0 }

/-- C9: submitting with an empty composed string is a no-op — counters,
invaders and pending input unchanged and no alert shown — and no reachable
submission is unparseable, because composed strings are digit strings, so
every nonempty one parses. -/
theorem checkAnswer_empty_noop (g : GameState) (h : g.currentAnswer = []) :
    checkAnswer g = { st := g, alert := none, ended := none } ∧
    ∀ ds : List (Fin 10), ds ≠ [] → (parseIntOpt ds).isSome = true := by
  refine ⟨by simp [checkAnswer, h], ?_⟩
  intro ds hds
  simp [parseIntOpt, hds]

/-- Witness for C9: on the sample empty-answer state nothing changes, and
the digit string 1, 2 parses. -/
theorem checkAnswer_empty_noop_witness :
    checkAnswer demoGEmpty = { st := demoGEmpty, alert := none, ended := none } ∧
    (parseIntOpt [1, 2]).isSome = true := by
  have h := checkAnswer_empty_noop demoGEmpty rfl
  exact ⟨h.1, h.2 [1, 2] (by decide)⟩

/-- C10: both end-of-game triggers — the timed-mode countdown reaching zero
and a score-mode submission reaching the target — invoke endGame with the
nominal win flag true, so in both modes the recorded outcome is a win exactly
when the wrong count does not exceed the correct count at that moment. -/
theorem end_triggers_nominal_win (g : GameState) :
    (∀ r, (timerTick g).2 = some r →
      r = endGame true (timerTick g).1 ∧
      (r.recordedWin = true ↔ g.scoreWrong ≤ g.scoreRight)) ∧
    (∀ r, (checkAnswer g).ended = some r →
      r = endGame true (checkAnswer g).st ∧
      (r.recordedWin = true ↔
        (checkAnswer g).st.scoreWrong ≤ (checkAnswer g).st.scoreRight)) := by
  constructor
  · intro r hr
    by_cases h : g.timeLeft - 1 ≤ 0
    · simp only [timerTick] at hr ⊢
      rw [if_pos h] at hr ⊢
      rcases Option.some.inj hr with rfl
      refine ⟨rfl, ?_⟩
      simp only [endGame, EndReport.mk.injEq]
      constructor
      · intro hw
        simpa using hw
      · intro hw
        simp [Nat.not_lt.mpr hw]
    · simp only [timerTick] at hr
      rw [if_neg h] at hr
      exact absurd hr (by simp)
  · intro r hr
    by_cases hne : g.currentAnswer = []
    · simp [checkAnswer, hne] at hr
    · cases hfc : findCorrectIndex g.multiplier (parseAnswer g.currentAnswer) g.invaders with
      | none => simp [checkAnswer, hne, hfc] at hr
      | some i =>
        simp only [checkAnswer, if_neg hne, hfc, Option.ite_none_right_eq_some,
          Option.some.injEq] at hr ⊢
        obtain ⟨-, hr⟩ := hr
        subst hr
        refine ⟨rfl, ?_⟩
        simp only [endGame]
        constructor
        · intro hw
          simpa using hw
        · intro hw
          simp [Nat.not_lt.mpr hw]

/-- Sample timed-mode state one second from the end. -/
def demoGTimed : GameState :=
  { settings :=
      { difficulty := Difficulty.single
        mode := Mode.time
        speed := SpeedSetting.intermediate
        multiplierMode := MultiplierMode.fixed
        fixedMultiplier := 4
        limit := 60 }
    scoreRight := 3
    scoreWrong := 1
    multiplier := 4
    invaders := []
    currentAnswer := []
    timeLeft := 1
    spawnInterval := 2500
    lastSpawnTime := 0 }

/-- Sample score-mode state one correct answer from the target. -/
def demoGTarget : GameState :=
  { settings :=
      { difficulty := Difficulty.single
        mode := Mode.score
        speed := SpeedSetting.intermediate
        multiplierMode := MultiplierMode.fixed
        fixedMultiplier := 4
        limit := 1 }
    scoreRight := 0
    scoreWrong := 0
    multiplier := 4
    invaders := [demoInvader]
    currentAnswer := [1, 2]
    timeLeft := 0
    spawnInterval := 2500
    lastSpawnTime := 0 }

/-- Witness for C10: the countdown trigger on the sample timed state and the
target trigger on the sample score state both resolve to recorded wins, their
wrong counts not exceeding their correct counts. -/
theorem end_triggers_nominal_win_witness :
    ((timerTick demoGTimed).2.map EndReport.recordedWin = some true) ∧
    ((checkAnswer demoGTarget).ended.map EndReport.recordedWin = some true) := by
  have ht : (timerTick demoGTimed).2 = some (endGame true (timerTick demoGTimed).1) := by
    decide
  have hc : (checkAnswer demoGTarget).ended
      = some (endGame true (checkAnswer demoGTarget).st) := by
    decide
  rcases (end_triggers_nominal_win demoGTimed).1 _ ht with ⟨-, hiff1⟩
  rcases (end_triggers_nominal_win demoGTarget).2 _ hc with ⟨-, hiff2⟩
  rw [ht, hc]
  simp only [Option.map]
  exact ⟨congrArg some (hiff1.mpr (by decide)), congrArg some (hiff2.mpr (by decide))⟩

theorem floor_eq_of_eq_intCast (n : ℤ) (q : ℚ) (h : q = (n : ℚ)) : ⌊q⌋ = n := by
  rw [h, Int.floor_intCast]

theorem spawnValue_29 : spawnValue Difficulty.single (2/9) = 3 := by
  have h : ⌊(2/9 : ℚ) * 9⌋ = 2 := floor_eq_of_eq_intCast 2 _ (by norm_num)
  show ⌊(2/9 : ℚ) * 9⌋ + 1 = 3
  omega

theorem spawnValue_13 : spawnValue Difficulty.single (1/3) = 4 := by
  have h : ⌊(1/3 : ℚ) * 9⌋ = 3 := floor_eq_of_eq_intCast 3 _ (by norm_num)
  show ⌊(1/3 : ℚ) * 9⌋ + 1 = 4
  omega

theorem randomMultiplier_13 : randomMultiplier Difficulty.single (1/3) = 4 := by
  have h : ⌊(1/3 : ℚ) * 9⌋ = 3 := floor_eq_of_eq_intCast 3 _ (by norm_num)
  show ⌊(1/3 : ℚ) * 9⌋ + 1 = 4
  omega

theorem randomMultiplier_23 : randomMultiplier Difficulty.single (2/3) = 7 := by
  have h : ⌊(2/3 : ℚ) * 9⌋ = 6 := floor_eq_of_eq_intCast 6 _ (by norm_num)
  show ⌊(2/3 : ℚ) * 9⌋ + 1 = 7
  omega

/-- Session start for the C6 scenario: fresh score-mode session. -/
def demoStart : GameState := start demoSettingsFixed 0 0

/-- One spawn with the random draw 2/9, which yields the value 3. -/
def demoDup1 : GameState := spawnInvader demoStart (2/9) 0 0 300

/-- A second spawn with the same draw 2/9: a second invader of value 3. -/
def demoDup2 : GameState := spawnInvader demoDup1 (2/9) 0 0 300

/-- C6 counterexample: from a fresh session, a spawn with draw 2/9 puts an
invader of value 3 on the list, and a second spawn with the same draw puts a
second value-3 invader next to it — even though the single-digit generator
range contains values absent from the list (draw 1/3 would have given 4), so
the duplicate was avoidable and the spawn operation did nothing to avoid it. -/
theorem spawn_duplicate_counterexample :
    demoDup1.invaders.map Invader.value = [3] ∧
    demoDup2.invaders.map Invader.value = [3, 3] ∧
    spawnValue Difficulty.single (1/3) = 4 := by
  refine ⟨?_, ?_, spawnValue_13⟩
  · simp [demoDup1, demoStart, spawnInvader, start, mkInvader, demoSettingsFixed,
      spawnValue_29]
  · simp [demoDup2, demoDup1, demoStart, spawnInvader, start, mkInvader,
      demoSettingsFixed, spawnValue_29]

/-- C6 amended: the spawn operation performs no duplicate avoidance — the
drawn value is appended to the active list regardless of the values already
present, so the list holds duplicates exactly when the random draws repeat. -/
theorem spawnInvader_no_dedup (g : GameState) (rv rx rs areaWidth : ℚ) :
    (spawnInvader g rv rx rs areaWidth).invaders.map Invader.value
      = g.invaders.map Invader.value ++ [spawnValue g.settings.difficulty rv] := by
  simp [spawnInvader, mkInvader]

/-- Random-multiplier settings for the C7 scenario. -/
def demoSettingsRandom : Settings :=
  { difficulty := Difficulty.single
    mode := Mode.score
    speed := SpeedSetting.intermediate
    multiplierMode := MultiplierMode.random
    fixedMultiplier := 7
    limit := 5 }

/-- A random-mode session after one spawn (value 3) with the digits 1, 2
composed: the start-time multiplier draw 1/3 gave the multiplier 4. -/
def demoRoundState : GameState :=
  handleKeypadInput (Key.digit 2) (handleKeypadInput (Key.digit 1)
    (spawnInvader (start demoSettingsRandom (1/3) 0) (2/9) 0 0 300))

theorem demoRoundState_eq :
    demoRoundState =
      { settings := demoSettingsRandom
        scoreRight := 0
        scoreWrong := 0
        multiplier := 4
        invaders := [{ value := 3, y := -50, x := 10, speed := 60 }]
        currentAnswer := [1, 2]
        timeLeft := 0
        spawnInterval := 2500
        lastSpawnTime := -2501 } := by
  simp [demoRoundState, handleKeypadInput, spawnInvader, start, setMultiplier,
    demoSettingsRandom, mkInvader, invaderSpeed, initialSpawnInterval,
    randomMultiplier_13, spawnValue_29]
  norm_num
  exact randomMultiplier_13

/-- C7 counterexample: in a random-mode session whose start drew multiplier 4,
submitting 12 answers the value-3 invader correctly and completes a round, yet
the multiplier for the next round is still 4 — no fresh draw happens (the next
random value 2/3 would have given 7). The multiplier is set once per session,
not once per round. -/
theorem multiplier_not_redrawn_counterexample :
    demoRoundState.settings.multiplierMode = MultiplierMode.random ∧
    demoRoundState.multiplier = 4 ∧
    (checkAnswer demoRoundState).alert = some Alert.correct ∧
    (checkAnswer demoRoundState).st.invaders = [] ∧
    (checkAnswer demoRoundState).st.multiplier = 4 ∧
    randomMultiplier Difficulty.single (2/3) = 7 := by
  rw [demoRoundState_eq]
  refine ⟨?_, ?_, ?_, ?_, ?_, randomMultiplier_23⟩ <;> decide

/-- C7 amended: in fixed mode the multiplier equals the player's clamped
fixed value, and in random mode it equals a single draw made at session
start; either way no in-session operation (submission, keypad input, frame,
or countdown tick) ever changes it, so it stays constant for the session. -/
theorem multiplier_constant_per_session (s : Settings) (rMult : ℚ) (w : Int)
    (d : Difficulty) (m : Mode) (sp : SpeedSetting) (tr sr fr : Option Int)
    (g : GameState) (k : Key) (wallNow : Int) (rv rx rs areaWidth height delta : ℚ) :
    (s.multiplierMode = MultiplierMode.fixed →
      (start s rMult w).multiplier = s.fixedMultiplier) ∧
    (start (getSettings d m sp MultiplierMode.fixed tr sr fr) rMult w).multiplier
      = clampFixedMultiplier fr ∧
    (s.multiplierMode = MultiplierMode.random →
      (start s rMult w).multiplier = randomMultiplier s.difficulty rMult) ∧
    (checkAnswer g).st.multiplier = g.multiplier ∧
    (handleKeypadInput k g).multiplier = g.multiplier ∧
    (frameStep g wallNow rv rx rs areaWidth height delta).multiplier = g.multiplier ∧
    (timerTick g).1.multiplier = g.multiplier := by
  refine ⟨?_, ?_, ?_, checkAnswer_multiplier g, ?_, ?_, ?_⟩
  · intro h; simp [start, setMultiplier, h]
  · simp [start, setMultiplier, getSettings]
  · intro h; simp [start, setMultiplier, h]
  · cases k with
    | digit dd =>
      by_cases h : g.currentAnswer.length < 5 <;> simp [handleKeypadInput, h]
    | del => rfl
    | submit => exact checkAnswer_multiplier g
  · unfold frameStep
    cases h : spawnDue wallNow g <;> simp [h, spawnInvader]
  · simp [timerTick]
    split <;> rfl

/-- Witness for the amended C7: the sample fixed-mode session starts at its
fixed multiplier 4 and the sample random-mode session at its drawn value 4;
a correct submission leaves the multiplier at 4. -/
theorem multiplier_constant_per_session_witness :
    (start demoSettingsFixed 0 0).multiplier = demoSettingsFixed.fixedMultiplier ∧
    (start demoSettingsRandom (1/3) 0).multiplier
      = randomMultiplier Difficulty.single (1/3) ∧
    (checkAnswer demoRoundState).st.multiplier = demoRoundState.multiplier := by
  have hf := multiplier_constant_per_session demoSettingsFixed 0 0 Difficulty.single
    Mode.score SpeedSetting.easy (some 60) (some 20) (some 4) demoRoundState Key.del
    0 0 0 0 300 400 (1/100)
  have hr := multiplier_constant_per_session demoSettingsRandom (1/3) 0 Difficulty.single
    Mode.score SpeedSetting.easy (some 60) (some 20) (some 4) demoRoundState Key.del
    0 0 0 0 300 400 (1/100)
  exact ⟨hf.1 rfl, hr.2.2.1 rfl, hr.2.2.2.1⟩

end MathInvaders
